import Mathlib

/-!
Shallow embedding of the IAM reconciliation module
(src/cloud/amazon/iam.py) and proofs about the claims of the
natural-language specification.

The provider (boto/AWS) is modelled as explicit account state; every
embedded function returns the updated state, the ordered list of provider
calls it issued, and an outcome.  `Outcome.fail` models
`module.fail_json` (with its `changed` keyword when one is passed),
`Outcome.crash` models an uncaught Python exception escaping the module.
-/

namespace Iam

/-- Character-list version of `s.startswith`. -/
def listStarts : List Char → List Char → Bool
  | [], _ => true
  | _ :: _, [] => false
  | a :: n, b :: h => a == b && listStarts n h

/-- True when the first character list occurs contiguously inside the second. -/
def listHasSub (n : List Char) : List Char → Bool
  | [] => n.isEmpty
  | b :: h => listStarts n (b :: h) || listHasSub n h

/-- Python `needle in hay` on strings (substring test). -/
def strHasSub (needle hay : String) : Bool :=
  listHasSub needle.data hay.data

/-- Python `str.lower`. -/
def strLower (s : String) : String := ⟨s.data.map Char.toLower⟩

/-- Python `str.capitalize` (upper-cases the first character). -/
def strCapitalize (s : String) : String :=
  match s.data with
  | [] => ⟨[]⟩
  | c :: t => ⟨Char.toUpper c :: t⟩

/-- The provider (boto IAM) calls the module can issue, in source order of
their call sites. -/
inductive Call where
  | getAllAccessKeys (user : String)
  | deleteAccessKey (key user : String)
  | getLoginProfiles (user : String)
  | deleteLoginProfile (user : String)
  | deleteUser (user : String)
  | getAllUserPolicies (user : String)
  | deleteUserPolicy (user policy : String)
  | createAccessKey (user : String)
  | updateAccessKey (key status user : String)
  | updateUser (user : String) (newName newPath : Option String)
  | updateLoginProfile (user : String)
  | createLoginProfile (user : String)
  | getUser (user : String)
  | createUser (user path : String)
  | getGroupsForUser (user : String)
  | addUserToGroup (group user : String)
  | removeUserFromGroup (group user : String)
  | getGroup (group : String)
  | createGroup (group path : String)
  | updateGroup (group : String) (newName newPath : Option String)
  | getAllGroupPolicies (group : String)
  | deleteGroupPolicy (group policy : String)
  | deleteGroup (group : String)
  | createRole (role path : String)
  | deleteRole (role : String)
  | listRoles
  | listInstanceProfilesForRole (role : String)
  | removeRoleFromInstanceProfile (profile role : String)
  | deleteInstanceProfile (profile : String)
  | createInstanceProfile (profile path : String)
  | addRoleToInstanceProfile (profile role : String)
  | listRolePolicies (role : String)
  | deleteRolePolicy (role policy : String)
deriving DecidableEq

/-- Result of a module invocation or of one embedded function.
`fail changed msg` is `module.fail_json(...)`; `changed = none` models a
`fail_json` call that passes no `changed` keyword.  `crash` models an
uncaught exception escaping the module. -/
inductive Outcome (α : Type) where
  | ok (r : α)
  | fail (changed : Option Bool) (msg : String)
  | crash (msg : String)
deriving DecidableEq

/-- The `while key_count > key_qty` loops of `create_user` (lines 179-184)
and `update_user` (lines 298-302): the sequence of `create_access_key`
calls issued, one call per iteration.  Written on the fuel
`key_count - key_qty` so that it is structurally recursive; the lemma
`createKeyLoop_eq` recovers the source's loop shape. -/
def createKeyGo (name : String) : Nat → List Call
  | 0 => []
  | f + 1 => Call.createAccessKey name :: createKeyGo name f

def createKeyLoop (name : String) (key_count key_qty : Nat) : List Call :=
  createKeyGo name (key_count - key_qty)

/-- The loop-shape equation of the source: while `key_qty < key_count`
one more `create_access_key` call is issued and the counter increments. -/
theorem createKeyLoop_eq (name : String) (key_count key_qty : Nat) :
    createKeyLoop name key_count key_qty =
      if key_qty < key_count then
        Call.createAccessKey name :: createKeyLoop name key_count (key_qty + 1)
      else [] := by
  unfold createKeyLoop
  rcases Nat.lt_or_ge key_qty key_count with h | h
  · have h1 : key_count - key_qty = (key_count - (key_qty + 1)) + 1 := by omega
    rw [h1, if_pos h]
    rfl
  · have h1 : key_count - key_qty = 0 := by omega
    rw [h1, if_neg (by omega)]
    rfl

theorem createKeyGo_length (name : String) (f : Nat) :
    (createKeyGo name f).length = f := by
  induction f with
  | zero => rfl
  | succ n ih => simp [createKeyGo, ih]

theorem createKeyGo_mem (name : String) (f : Nat) :
    ∀ c ∈ createKeyGo name f, c = Call.createAccessKey name := by
  induction f with
  | zero => intro c hc; cases hc
  | succ n ih =>
    intro c hc
    rcases hc with _ | ⟨_, hc⟩
    · rfl
    · exact ih c hc

/-- One IAM user of the account, with the narrow facts the module reads:
path, access keys as (id, status) pairs with status "Active"/"Inactive",
whether a login profile exists, current group memberships, and whether
`delete_user` is blocked by attached policies (the provider then faults
with "must detach all policies first"). -/
structure IamUser where
  uname : String
  upath : String
  keys : List (String × String)
  hasLoginProfile : Bool
  memberOf : List String
  deleteBlocked : Bool
deriving DecidableEq

/-- The provider-side account state visible to the user reconciler.
`deniedGroups` are groups for which `add_user_to_group` faults with a
message other than "group not found" (e.g. an authorization fault);
`createKeyFaults` makes `create_access_key` fault; `nextKeyId` numbers
freshly created access keys. -/
structure Account where
  users : List IamUser
  groupNames : List String
  deniedGroups : List String
  passwordPolicyOk : Bool
  createKeyFaults : Bool
  nextKeyId : Nat
deriving DecidableEq

def Account.findUser (a : Account) (n : String) : Option IamUser :=
  a.users.find? (fun u => u.uname == n)

def Account.setUser (a : Account) (n : String) (f : IamUser → IamUser) : Account :=
  { a with users := a.users.map (fun u => if u.uname == n then f u else u) }

def Account.removeUser (a : Account) (n : String) : Account :=
  { a with users := a.users.filter (fun u => !(u.uname == n)) }

/-- Effect of boto's `update_user(name, new_user_name, new_path)` on the
account: the named user's name and/or path are replaced. -/
def Account.renameUser (a : Account) (n : String) (nn np : Option String) : Account :=
  a.setUser n (fun u => { u with uname := nn.getD u.uname, upath := np.getD u.upath })

/-- Effect of `fuel` successful `create_access_key` calls on the account:
fresh active keys named from the counter. -/
def Account.addKeysGo (a : Account) (n : String) : Nat → Account
  | 0 => a
  | f + 1 =>
      (({ a with nextKeyId := a.nextKeyId + 1 }).setUser n
        (fun u => { u with keys := u.keys ++ [("AK" ++ toString a.nextKeyId, "Active")] })).addKeysGo n f

/-! ## Membership reconciliation: `set_users_groups` (lines 347-385) -/

/-- The add loop of the `len(orig_users_groups) > 0` branch
(lines 368-369): `iam.add_user_to_group` is issued outside any `try`, so
a provider fault — group missing or otherwise — escapes the module as an
uncaught exception.  Returns the issued calls and whether the loop
crashed. -/
def addStrictLoop (names denied : List String) (user : String) :
    List String → List Call × Bool
  | [] => ([], false)
  | g :: rest =>
      if g ∈ names ∧ g ∉ denied then
        let r := addStrictLoop names denied user rest
        (Call.addUserToGroup g user :: r.1, r.2)
      else ([Call.addUserToGroup g user], true)

/-- The add loop of the zero-current-groups branch (lines 372-379): each
`add_user_to_group` is wrapped in a `try` whose handler calls
`fail_json` naming the group only when the fault message is
"The group with name ... cannot be found."; any other `BotoServerError`
is caught and silently ignored, and the loop continues.  Returns the
issued calls and the group named in a `fail_json`, when one occurred. -/
def addAllLoop (names : List String) (user : String) :
    List String → List Call × Option String
  | [] => ([], none)
  | g :: rest =>
      if g ∈ names then
        let r := addAllLoop names user rest
        (Call.addUserToGroup g user :: r.1, r.2)
      else ([Call.addUserToGroup g user], some g)

/-- Shallow embedding of `set_users_groups` (lines 347-385), list-level:
`orig` is the user's current group list as `get_groups_for_user`
returned it, `groups` the desired list.  The returned value mirrors the
source's `return (groups, changed)`. -/
def set_users_groups (names denied : List String) (user : String)
    (orig groups : List String) : List Call × Outcome (List String × Bool) :=
  let remove_groups := orig.filter (fun g => !(groups.contains g))
  let new_groups := groups.dedup.filter (fun g => !(orig.contains g))
  let changed := !remove_groups.isEmpty || !new_groups.isEmpty
  if orig.isEmpty then
    match addAllLoop names user groups with
    | (addCalls, some g) =>
        (Call.getGroupsForUser user :: addCalls,
          Outcome.fail (some false) ("Group " ++ g ++ " does not exist"))
    | (addCalls, none) =>
        (Call.getGroupsForUser user :: addCalls, Outcome.ok (groups, changed))
  else
    let r := addStrictLoop names denied user new_groups
    if r.2 then
      (Call.getGroupsForUser user :: r.1,
        Outcome.crash "BotoServerError during add_user_to_group")
    else
      (Call.getGroupsForUser user :: r.1
          ++ remove_groups.map (fun g => Call.removeUserFromGroup g user),
        Outcome.ok (groups, changed))

/-- Provider semantics of a single membership call on a membership list. -/
def applyGroupCall (m : List String) : Call → List String
  | Call.addUserToGroup g _ => if g ∈ m then m else m ++ [g]
  | Call.removeUserFromGroup g _ => m.filter (fun x => !(x == g))
  | _ => m

/-- Provider semantics of a call sequence on a membership list. -/
def applyGroupCalls (m : List String) (cs : List Call) : List String :=
  cs.foldl applyGroupCall m

theorem addStrictLoop_ok (names denied : List String) (user : String)
    (l : List String) (h : ∀ g ∈ l, g ∈ names ∧ g ∉ denied) :
    addStrictLoop names denied user l =
      (l.map (fun g => Call.addUserToGroup g user), false) := by
  induction l with
  | nil => rfl
  | cons a t ih =>
    have ha := h a (by simp)
    rw [addStrictLoop, if_pos ha, ih (fun g hg => h g (by simp [hg]))]
    rfl

theorem addAllLoop_ok (names : List String) (user : String)
    (l : List String) (h : ∀ g ∈ l, g ∈ names) :
    addAllLoop names user l =
      (l.map (fun g => Call.addUserToGroup g user), none) := by
  induction l with
  | nil => rfl
  | cons a t ih =>
    rw [addAllLoop, if_pos (h a (by simp)), ih (fun g hg => h g (by simp [hg]))]
    rfl

theorem mem_addOne (m : List String) (a x : String) :
    (x ∈ if a ∈ m then m else m ++ [a]) ↔ x ∈ m ∨ x = a := by
  by_cases ha : a ∈ m
  · rw [if_pos ha]
    constructor
    · exact Or.inl
    · rintro (h | rfl)
      · exact h
      · exact ha
  · rw [if_neg ha]
    simp

theorem mem_applyAdds (user : String) (l : List String) (m : List String) (x : String) :
    x ∈ applyGroupCalls m (l.map (fun g => Call.addUserToGroup g user)) ↔
      x ∈ m ∨ x ∈ l := by
  induction l generalizing m with
  | nil => simp [applyGroupCalls]
  | cons a t ih =>
    simp only [List.map_cons, applyGroupCalls, List.foldl_cons]
    rw [show List.foldl applyGroupCall = applyGroupCalls from rfl, ih]
    simp only [applyGroupCall]
    rw [mem_addOne]
    simp [List.mem_cons, or_assoc]

theorem mem_applyRemoves (user : String) (l : List String) (m : List String) (x : String) :
    x ∈ applyGroupCalls m (l.map (fun g => Call.removeUserFromGroup g user)) ↔
      x ∈ m ∧ x ∉ l := by
  induction l generalizing m with
  | nil => simp [applyGroupCalls]
  | cons a t ih =>
    simp only [List.map_cons, applyGroupCalls, List.foldl_cons]
    rw [show List.foldl applyGroupCall = applyGroupCalls from rfl, ih]
    simp [applyGroupCall, List.mem_filter, List.mem_cons]
    tauto

theorem mem_newGroups (orig groups : List String) (g : String) :
    g ∈ groups.dedup.filter (fun x => !(orig.contains x)) ↔ g ∈ groups ∧ g ∉ orig := by
  simp [List.mem_filter, List.mem_dedup]

theorem mem_removeGroups (orig groups : List String) (g : String) :
    g ∈ orig.filter (fun x => !(groups.contains x)) ↔ g ∈ orig ∧ g ∉ groups := by
  simp [List.mem_filter]

theorem set_users_groups_nil (names denied : List String) (user : String)
    (groups : List String) (h : ∀ g ∈ groups, g ∈ names) :
    set_users_groups names denied user [] groups =
      (Call.getGroupsForUser user :: groups.map (fun g => Call.addUserToGroup g user),
        Outcome.ok (groups, !(groups.dedup.isEmpty))) := by
  unfold set_users_groups
  rw [addAllLoop_ok names user groups h]
  simp

theorem set_users_groups_cons (names denied : List String) (user o : String)
    (os groups : List String) (hok : ∀ g ∈ groups, g ∈ names ∧ g ∉ denied) :
    set_users_groups names denied user (o :: os) groups =
      (Call.getGroupsForUser user ::
          (((groups.dedup.filter (fun x => !((o :: os).contains x))).map
              (fun g => Call.addUserToGroup g user))
            ++ ((o :: os).filter (fun x => !(groups.contains x))).map
              (fun g => Call.removeUserFromGroup g user)),
        Outcome.ok (groups,
          !(((o :: os).filter (fun x => !(groups.contains x))).isEmpty)
            || !((groups.dedup.filter (fun x => !((o :: os).contains x))).isEmpty))) := by
  have hsub : ∀ g ∈ groups.dedup.filter (fun x => !((o :: os).contains x)),
      g ∈ names ∧ g ∉ denied := by
    intro g hg
    exact hok g ((mem_newGroups (o :: os) groups g).mp hg).1
  unfold set_users_groups
  simp only [List.isEmpty_cons,
    addStrictLoop_ok names denied user
      (groups.dedup.filter (fun x => !((o :: os).contains x))) hsub]
  simp

/-- All the facts C2 claims of one `set_users_groups` run over current
membership `orig` and desired membership `groups`: the add calls are
exactly the desired-minus-current set, the remove calls exactly the
current-minus-desired set, adds are all issued before any remove,
applying the issued calls to the current membership yields exactly the
desired set, and the returned changed flag is true iff one of the two
difference sets is non-empty. -/
def membershipSpec (user : String) (orig groups : List String)
    (r : List Call × Outcome (List String × Bool)) : Prop :=
  (∀ g, Call.addUserToGroup g user ∈ r.1 ↔ g ∈ groups ∧ g ∉ orig) ∧
  (∀ g, Call.removeUserFromGroup g user ∈ r.1 ↔ g ∈ orig ∧ g ∉ groups) ∧
  (∃ adds removes, r.1 = Call.getGroupsForUser user :: (adds ++ removes) ∧
      (∀ c ∈ adds, ∃ g, c = Call.addUserToGroup g user) ∧
      (∀ c ∈ removes, ∃ g, c = Call.removeUserFromGroup g user)) ∧
  (∀ g, g ∈ applyGroupCalls orig r.1 ↔ g ∈ groups) ∧
  (∃ c, r.2 = Outcome.ok (groups, c) ∧
      (c = true ↔ ∃ g, (g ∈ groups ∧ g ∉ orig) ∨ (g ∈ orig ∧ g ∉ groups)))

/-- C2: for every current membership set C and desired set D supplied to
`set_users_groups`, toAdd = D minus C and toRemove = C minus D are
computed, all add-to-group calls are issued before any
remove-from-group call, applying the calls yields exactly D, and the
returned changed flag is true iff toAdd or toRemove is non-empty.
Hypothesis: every desired group exists and its add call does not fault
(the fault cases are the subject of C10). -/
theorem c2_set_users_groups_diff (names denied : List String) (user : String)
    (orig groups : List String)
    (hok : ∀ g ∈ groups, g ∈ names ∧ g ∉ denied) :
    membershipSpec user orig groups (set_users_groups names denied user orig groups) := by
  cases orig with
  | nil =>
    rw [set_users_groups_nil names denied user groups (fun g hg => (hok g hg).1)]
    refine ⟨?_, ?_, ?_, ?_, ?_⟩
    · intro g
      simp [List.mem_map]
    · intro g
      simp
    · refine ⟨groups.map (fun g => Call.addUserToGroup g user), [], by simp, ?_, by simp⟩
      intro c hc
      rcases List.mem_map.mp hc with ⟨g, _, rfl⟩
      exact ⟨g, rfl⟩
    · intro g
      have h1 : applyGroupCalls ([] : List String)
          (Call.getGroupsForUser user :: groups.map (fun g => Call.addUserToGroup g user))
          = applyGroupCalls ([] : List String)
            (groups.map (fun g => Call.addUserToGroup g user)) := rfl
      rw [h1, mem_applyAdds]
      simp
    · refine ⟨!(groups.dedup.isEmpty), rfl, ?_⟩
      simp [List.isEmpty_iff, List.eq_nil_iff_forall_not_mem]
  | cons o os =>
    rw [set_users_groups_cons names denied user o os groups hok]
    refine ⟨?_, ?_, ?_, ?_, ?_⟩
    · intro g
      rw [← mem_newGroups (o :: os) groups g]
      simp [List.mem_map]
    · intro g
      rw [← mem_removeGroups (o :: os) groups g]
      simp [List.mem_map]
    · refine ⟨_, _, rfl, ?_, ?_⟩
      · intro c hc
        rcases List.mem_map.mp hc with ⟨g, _, rfl⟩
        exact ⟨g, rfl⟩
      · intro c hc
        rcases List.mem_map.mp hc with ⟨g, _, rfl⟩
        exact ⟨g, rfl⟩
    · intro g
      have happ : ∀ (m : List String) (l1 l2 : List Call),
          applyGroupCalls m (l1 ++ l2) = applyGroupCalls (applyGroupCalls m l1) l2 :=
        fun m l1 l2 => List.foldl_append applyGroupCall m l1 l2
      have h1 : ∀ (cs : List Call), applyGroupCalls (o :: os)
          (Call.getGroupsForUser user :: cs) = applyGroupCalls (o :: os) cs := fun _ => rfl
      rw [h1, happ, mem_applyRemoves, mem_applyAdds, mem_newGroups, mem_removeGroups]
      constructor
      · rintro ⟨h2 | ⟨h2, h3⟩, h4⟩
        · by_contra hg
          exact h4 ⟨h2, hg⟩
        · exact h2
      · intro h2
        by_cases h3 : g ∈ o :: os
        · exact ⟨Or.inl h3, fun h4 => h4.2 h2⟩
        · exact ⟨Or.inr ⟨h2, h3⟩, fun h4 => h3 h4.1⟩
    · refine ⟨_, rfl, ?_⟩
      have hiff : ∀ (l : List String), (!(l.isEmpty)) = true ↔ ∃ x, x ∈ l := by
        intro l
        cases l <;> simp
      rw [Bool.or_eq_true, hiff, hiff]
      constructor
      · rintro (⟨g, hg⟩ | ⟨g, hg⟩)
        · exact ⟨g, Or.inr ((mem_removeGroups (o :: os) groups g).mp hg)⟩
        · exact ⟨g, Or.inl ((mem_newGroups (o :: os) groups g).mp hg)⟩
      · rintro ⟨g, h | h⟩
        · exact Or.inr ⟨g, (mem_newGroups (o :: os) groups g).mpr h⟩
        · exact Or.inl ⟨g, (mem_removeGroups (o :: os) groups g).mpr h⟩

/-- Witness for C2 at concrete sets C = ["a", "x"], D = ["a", "b"]. -/
theorem c2_set_users_groups_diff_witness :
    (∀ g ∈ ["a", "b"], g ∈ ["a", "b", "x"] ∧ g ∉ ([] : List String)) ∧
      membershipSpec "u" ["a", "x"] ["a", "b"]
        (set_users_groups ["a", "b", "x"] [] "u" ["a", "x"] ["a", "b"]) :=
  ⟨by decide, c2_set_users_groups_diff ["a", "b", "x"] [] "u" ["a", "x"] ["a", "b"] (by decide)⟩

theorem addAllLoop_firstMissing (names : List String) (user : String)
    (pre : List String) (g : String) (rest : List String)
    (hpre : ∀ p ∈ pre, p ∈ names) (hg : g ∉ names) :
    addAllLoop names user (pre ++ g :: rest) =
      (pre.map (fun p => Call.addUserToGroup p user) ++ [Call.addUserToGroup g user],
        some g) := by
  induction pre with
  | nil =>
    rw [List.nil_append, addAllLoop, if_neg hg]
    rfl
  | cons a t ih =>
    rw [List.cons_append, addAllLoop, if_pos (hpre a (by simp)),
      ih (fun p hp => hpre p (by simp [hp]))]
    rfl

theorem set_users_groups_nil_missing (names denied : List String) (user : String)
    (pre : List String) (g : String) (rest : List String)
    (hpre : ∀ p ∈ pre, p ∈ names) (hg : g ∉ names) :
    set_users_groups names denied user [] (pre ++ g :: rest) =
      (Call.getGroupsForUser user ::
          (pre.map (fun p => Call.addUserToGroup p user) ++ [Call.addUserToGroup g user]),
        Outcome.fail (some false) ("Group " ++ g ++ " does not exist")) := by
  unfold set_users_groups
  simp only [List.isEmpty_nil,
    addAllLoop_firstMissing names user pre g rest hpre hg]
  simp

/-- C10 counterexample: the user belongs to zero groups, desired groups
are g1 and g2, both exist, but the add of g1 faults with a message other
than "group not found" (g1 is in the denied list).  The source catches
`BotoServerError` around each add and re-raises nothing unless the
message is the group-not-found one (lines 373-379), so the fault is
silently absorbed: the run continues with g2 and returns a successful
outcome, contradicting the claim that every other provider fault aborts
the invocation and surfaces verbatim. -/
theorem c10_absorbed_fault_cex :
    set_users_groups ["g1", "g2"] ["g1"] "u" [] ["g1", "g2"] =
      (Call.getGroupsForUser "u" ::
          [Call.addUserToGroup "g1" "u", Call.addUserToGroup "g2" "u"],
        Outcome.ok (["g1", "g2"], true)) := by
  decide

/-- C10 amended: when the user currently belongs to zero groups, every
desired group is added individually and a group-not-found fault is
reported as a structured failure naming the missing group (stopping the
remaining adds); any other provider fault during such an add is caught
and silently ignored — the invocation continues with the remaining adds
and returns success, rather than aborting and surfacing the fault. -/
theorem c10_zero_groups_amended (names denied : List String) (user : String)
    (pre : List String) (g : String) (rest : List String)
    (hpre : ∀ p ∈ pre, p ∈ names) (hg : g ∉ names)
    (groups2 : List String) (hok : ∀ x ∈ groups2, x ∈ names) :
    set_users_groups names denied user [] (pre ++ g :: rest) =
      (Call.getGroupsForUser user ::
          (pre.map (fun p => Call.addUserToGroup p user) ++ [Call.addUserToGroup g user]),
        Outcome.fail (some false) ("Group " ++ g ++ " does not exist")) ∧
    set_users_groups names denied user [] groups2 =
      (Call.getGroupsForUser user :: groups2.map (fun x => Call.addUserToGroup x user),
        Outcome.ok (groups2, !(groups2.dedup.isEmpty))) :=
  ⟨set_users_groups_nil_missing names denied user pre g rest hpre hg,
    set_users_groups_nil names denied user groups2 hok⟩

/-- Witness for C10 amended: "b" is missing, and the denied group "a"
is still added (silently) on the second run. -/
theorem c10_zero_groups_amended_witness :
    (∀ p ∈ ["a"], p ∈ ["a"]) ∧ "b" ∉ ["a"] ∧ (∀ x ∈ ["a"], x ∈ ["a"]) ∧
    (set_users_groups ["a"] ["a"] "u" [] (["a"] ++ "b" :: []) =
      (Call.getGroupsForUser "u" ::
          (["a"].map (fun p => Call.addUserToGroup p "u") ++ [Call.addUserToGroup "b" "u"]),
        Outcome.fail (some false) ("Group " ++ "b" ++ " does not exist")) ∧
    set_users_groups ["a"] ["a"] "u" [] ["a"] =
      (Call.getGroupsForUser "u" :: ["a"].map (fun x => Call.addUserToGroup x "u"),
        Outcome.ok (["a"], !((["a"] : List String).dedup.isEmpty)))) :=
  ⟨by decide, by decide, by decide,
    c10_zero_groups_amended ["a"] ["a"] "u" ["a"] "b" [] (by decide) (by decide)
      ["a"] (by decide)⟩

/-! ## User deletion: `delete_user` (lines 194-232) -/

/-- Shallow embedding of `delete_user` (lines 194-232).  The source
structure is:

* an outer `try` whose handler calls `fail_json(changed=False, ...)` and
  only after that contains the inline-policy remediation and retry code
  (lines 213-229) — since `fail_json` raises `SystemExit`, that
  remediation code is unreachable;
* an inner `try` around `get_login_profiles` whose handler deletes the
  login profile (when the fault is not "Cannot find Login Profile") or
  not (when it is), and in both fault cases calls `delete_user`; when
  `get_login_profiles` SUCCEEDS — i.e. the user has a login profile —
  no branch issues `delete_login_profile` or `delete_user` at all, and
  the outer `else` returns `changed = True` with an empty `del_meta`.

The embedding models `delete_user`'s provider fault ("must detach all
policies first") through `IamUser.deleteBlocked`. -/
def delete_user (acct : Account) (name : String) :
    Account × List Call × Outcome (String × String × Bool) :=
  match acct.findUser name with
  | none =>
      (acct, [Call.getAllAccessKeys name],
        Outcome.fail (some false)
          ("delete failed The user with name " ++ name ++ " cannot be found."))
  | some u =>
      let acct1 := acct.setUser name (fun v => { v with keys := [] })
      let calls1 := Call.getAllAccessKeys name
        :: u.keys.map (fun k => Call.deleteAccessKey k.1 name)
        ++ [Call.getLoginProfiles name]
      if u.hasLoginProfile then
        -- get_login_profiles succeeds: the inner try ends without issuing
        -- any further call; the outer else returns changed = True.
        (acct1, calls1, Outcome.ok ("", name, true))
      else
        -- "Cannot find Login Profile" fault: treated as benign, the user
        -- deletion is issued directly.
        if u.deleteBlocked then
          -- delete_user faults; the outer handler fail_jsons immediately,
          -- the remediation code after it never runs.
          (acct1, calls1 ++ [Call.deleteUser name],
            Outcome.fail (some false) "delete failed must detach all policies first")
        else
          (acct1.removeUser name, calls1 ++ [Call.deleteUser name],
            Outcome.ok ("deleted", name, true))

/-- C1 (code bug): `delete_user` on an existing user does delete all
access keys first, but (a) when the user HAS a login profile the
function returns success with changed = True without ever issuing
delete-login-profile or delete-user — the user survives; and (b) when
user deletion faults because inline policies are attached, the module
fails immediately with changed = False: the enumerate-inline-policies
retry of lines 213-229 sits after the `fail_json` call inside the
exception handler and never runs, so no policy enumeration, deletion or
retry call is issued. -/
theorem c1_delete_user_bug :
    (let acct : Account :=
      { users := [{ uname := "u", upath := "/", keys := [("K1", "Active")],
                    hasLoginProfile := true, memberOf := [], deleteBlocked := false }],
        groupNames := [], deniedGroups := [], passwordPolicyOk := true,
        createKeyFaults := false, nextKeyId := 0 }
     let r := delete_user acct "u"
     r.2.2 = Outcome.ok ("", "u", true) ∧
       Call.deleteUser "u" ∉ r.2.1 ∧ Call.deleteLoginProfile "u" ∉ r.2.1 ∧
       Call.deleteAccessKey "K1" "u" ∈ r.2.1 ∧
       (r.1.findUser "u").isSome = true) ∧
    (let acct2 : Account :=
      { users := [{ uname := "u", upath := "/", keys := [],
                    hasLoginProfile := false, memberOf := [], deleteBlocked := true }],
        groupNames := [], deniedGroups := [], passwordPolicyOk := true,
        createKeyFaults := false, nextKeyId := 0 }
     let r2 := delete_user acct2 "u"
     r2.2.2 = Outcome.fail (some false) "delete failed must detach all policies first" ∧
       r2.2.1 = [Call.getAllAccessKeys "u", Call.getLoginProfiles "u",
         Call.deleteUser "u"] ∧
       r2.2.1.all (fun c => match c with
         | Call.deleteUserPolicy _ _ => false
         | _ => true) = true ∧
       Call.getAllUserPolicies "u" ∉ r2.2.1) := by
  constructor
  · refine ⟨by decide, by decide, by decide, by decide, by decide⟩
  · refine ⟨by decide, by decide, by decide, by decide⟩

/-! ## User update: `update_user` (lines 235-344) -/

/-- Result type of the embedded `update_user`: final account, issued
calls, and outcome carrying the source's
`(name_change, updated_key_list, changed)` triple; the key list is the
id-to-status mapping of the final re-fetch. -/
abbrev URes := Account × List Call × Outcome (Bool × List (String × String) × Bool)

/-- The explicit-key-id section of `update_user` (lines 307-327): for
each listed key that exists in `current`, the inner loop zips over ALL
current keys and issues one `update_access_key(access_key, ...)` call
for every current key whose status differs from the requested state —
the listed key's own status is never compared against the requested
state (the loop variable `current_key` is bound but unused in the
comparison).  When the requested state is "remove", a delete of the
listed key follows unconditionally. -/
def update_userKeyOps (name ks : String) (keyIds : List String)
    (current : List (String × String)) : List Call :=
  keyIds.foldl (fun acc access_key =>
    if current.any (fun ck => ck.1 == access_key) then
      acc
        ++ current.foldl (fun a ck =>
            if !(strLower ck.2 == ks) then
              a ++ [Call.updateAccessKey access_key (strCapitalize ks) name]
            else a) []
        ++ (if ks == "remove" then [Call.deleteAccessKey access_key name] else [])
    else acc) []

/-- Provider semantics of one key-manipulation call on the account. -/
def Account.applyKeyCall (a : Account) (n : String) : Call → Account
  | Call.updateAccessKey k st _ =>
      a.setUser n (fun u =>
        { u with keys := u.keys.map (fun p => if p.1 == k then (p.1, st) else p) })
  | Call.deleteAccessKey k _ =>
      a.setUser n (fun u => { u with keys := u.keys.filter (fun p => !(p.1 == k)) })
  | _ => a

def Account.applyKeyCalls (a : Account) (n : String) (cs : List Call) : Account :=
  cs.foldl (fun acc c => acc.applyKeyCall n c) a

/-- Rename / path-change block of `update_user` (lines 261-279).
`iam.get_user(name)` at line 262 is issued outside any try: on a
missing user the fault escapes as an uncaught exception.  The local
`name` is NOT updated after a successful rename (the caller receives
`name_change` instead), so later calls still use the old name. -/
def update_userRename (acct : Account) (calls : List Call) (name : String)
    (new_name new_path : Option String) (updated : Bool) :
    (Account × List Call × Bool × Bool) ⊕ URes :=
  if new_name.isSome || new_path.isSome then
    match acct.findUser name with
    | none =>
        Sum.inr (acct, calls ++ [Call.getUser name],
          Outcome.crash ("BotoServerError: the user with name " ++ name
            ++ " cannot be found"))
    | some u =>
        if new_name ≠ some name ∨ new_path ≠ some u.upath then
          if updated then
            Sum.inl (acct.renameUser name none new_path,
              calls ++ [Call.getUser name, Call.updateUser name none new_path],
              true, false)
          else
            Sum.inl (acct.renameUser name new_name new_path,
              calls ++ [Call.getUser name, Call.updateUser name new_name new_path],
              true, true)
        else Sum.inl (acct, calls ++ [Call.getUser name], false, false)
  else Sum.inl (acct, calls, false, false)

/-- Password block of `update_user` (lines 281-294): try
`update_login_profile`; on fault try `create_login_profile`; a policy
violation fails with changed=False, any other creation fault fails
without a changed key. -/
def update_userPwd (acct : Account) (calls : List Call) (changed : Bool)
    (name : String) (pwd : Option String) : (Account × List Call × Bool) ⊕ URes :=
  match pwd with
  | none => Sum.inl (acct, calls, changed)
  | some _ =>
      match acct.findUser name with
      | some u =>
          if u.hasLoginProfile then
            Sum.inl (acct, calls ++ [Call.updateLoginProfile name], true)
          else
            if acct.passwordPolicyOk then
              Sum.inl (acct.setUser name (fun v => { v with hasLoginProfile := true }),
                calls ++ [Call.updateLoginProfile name, Call.createLoginProfile name],
                true)
            else
              Sum.inr (acct,
                calls ++ [Call.updateLoginProfile name, Call.createLoginProfile name],
                Outcome.fail (some false) "Passsword does not conform to policy")
      | none =>
          Sum.inr (acct,
            calls ++ [Call.updateLoginProfile name, Call.createLoginProfile name],
            Outcome.fail none ("The user with name " ++ name ++ " cannot be found"))

/-- Key-creation block of `update_user` (lines 296-305): the
`while key_count > key_qty` loop; a provider fault fails with
changed=False. -/
def update_userCreateKeys (acct : Account) (calls : List Call) (changed : Bool)
    (name : String) (key_state : Option String) (key_count key_qty : Nat) :
    (Account × List Call × Bool) ⊕ URes :=
  if key_state == some "create" then
    if key_qty < key_count then
      match acct.findUser name with
      | none =>
          Sum.inr (acct, calls ++ [Call.createAccessKey name],
            Outcome.fail (some false)
              ("The user with name " ++ name ++ " cannot be found"))
      | some _ =>
          if acct.createKeyFaults then
            Sum.inr (acct, calls ++ [Call.createAccessKey name],
              Outcome.fail (some false) "create_access_key fault")
          else
            Sum.inl (acct.addKeysGo name (key_count - key_qty),
              calls ++ createKeyLoop name key_count key_qty, true)
    else Sum.inl (acct, calls, changed)
  else Sum.inl (acct, calls, changed)

/-- Explicit-key-id block of `update_user` (lines 307-327), wired into
the run: the calls computed by `update_userKeyOps` are issued and
applied; if at least one call is issued `changed` becomes True; a
provider fault (user missing) fails with changed=False after the first
attempted call. -/
def update_userKeyState (acct : Account) (calls : List Call) (changed : Bool)
    (name : String) (key_state : Option String) (keys : Option (List String))
    (current : List (String × String)) : (Account × List Call × Bool) ⊕ URes :=
  match keys, key_state with
  | some kl, some ks =>
      if kl.isEmpty then Sum.inl (acct, calls, changed)
      else
        let ops := update_userKeyOps name ks kl current
        if ops.isEmpty then Sum.inl (acct, calls, changed)
        else
          match acct.findUser name with
          | none =>
              Sum.inr (acct, calls ++ ops.take 1,
                Outcome.fail (some false)
                  ("The user with name " ++ name ++ " cannot be found"))
          | some _ => Sum.inl (acct.applyKeyCalls name ops, calls ++ ops, true)
  | _, _ => Sum.inl (acct, calls, changed)

/-- Final key re-fetch of `update_user` (lines 328-343): the only
failure path that reports the accumulated `changed` flag. -/
def update_userFinal (acct : Account) (calls : List Call) (changed name_change : Bool)
    (name : String) : URes :=
  match acct.findUser name with
  | none =>
      (acct, calls ++ [Call.getAllAccessKeys name],
        Outcome.fail (some changed)
          ("The user with name " ++ name ++ " cannot be found"))
  | some u =>
      (acct, calls ++ [Call.getAllAccessKeys name],
        Outcome.ok (name_change, u.keys, changed))

def update_userCore (acct : Account) (calls0 : List Call) (name : String)
    (new_name new_path : Option String) (key_state : Option String) (key_count : Nat)
    (keys : Option (List String)) (pwd : Option String) (updated : Bool)
    (current : List (String × String)) : URes :=
  match update_userRename acct calls0 name new_name new_path updated with
  | Sum.inr r => r
  | Sum.inl (a1, c1, ch1, nc) =>
    match update_userPwd a1 c1 ch1 name pwd with
    | Sum.inr r => r
    | Sum.inl (a2, c2, ch2) =>
      match update_userCreateKeys a2 c2 ch2 name key_state key_count current.length with
      | Sum.inr r => r
      | Sum.inl (a3, c3, ch3) =>
        match update_userKeyState a3 c3 ch3 name key_state keys current with
        | Sum.inr r => r
        | Sum.inl (a4, c4, ch4) => update_userFinal a4 c4 ch4 nc name

/-- Shallow embedding of `update_user` (lines 235-344), starting with
the initial access-key fetch (lines 240-257): when the declared name
cannot be found and `updated` is set, the keys are re-fetched under
`new_name` inside the exception handler (a second fault there escapes
uncaught); when `updated` is set the local name was already replaced by
`new_name` at lines 238-239, so that retry re-fetches the same name. -/
def update_user (acct : Account) (name0 : String) (new_name new_path : Option String)
    (key_state : Option String) (key_count : Nat) (keys : Option (List String))
    (pwd : Option String) (updated : Bool) : URes :=
  let name1 := if updated then (match new_name with | some n => n | none => name0)
               else name0
  match acct.findUser name1 with
  | some u =>
      update_userCore acct [Call.getAllAccessKeys name1] name1 new_name new_path
        key_state key_count keys pwd updated u.keys
  | none =>
      if updated then
        let nn := match new_name with | some n => n | none => name1
        match acct.findUser nn with
        | some u =>
            update_userCore acct [Call.getAllAccessKeys name1, Call.getAllAccessKeys nn]
              nn new_name new_path key_state key_count keys pwd updated u.keys
        | none =>
            (acct, [Call.getAllAccessKeys name1, Call.getAllAccessKeys nn],
              Outcome.crash ("BotoServerError: the user with name " ++ nn
                ++ " cannot be found"))
      else
        (acct, [Call.getAllAccessKeys name1],
          Outcome.fail (some false)
            ("The user with name " ++ name1 ++ " cannot be found"))

/-- C3: key-count convergence.  Both key-creation sites — `create_user`
(lines 177-186) and `update_user` (lines 296-305) — run the
`while key_count > key_qty` loop embedded as `createKeyLoop`: with
current count k and target n it issues exactly n − k individual
`create_access_key` calls when k ≤ n, zero calls when n ≤ k, and only
ever create calls (never a delete); and in `update_user` the create
block appends exactly those calls and reports changed. -/
theorem c3_key_count_convergence (name : String) (n k : Nat) :
    (k ≤ n → (createKeyLoop name n k).length = n - k) ∧
    (n ≤ k → (createKeyLoop name n k).length = 0) ∧
    (∀ c ∈ createKeyLoop name n k, c = Call.createAccessKey name) ∧
    (∀ (acct : Account) (calls : List Call) (changed : Bool) (u : IamUser),
      acct.findUser name = some u → acct.createKeyFaults = false → k < n →
      update_userCreateKeys acct calls changed name (some "create") n k =
        Sum.inl (acct.addKeysGo name (n - k), calls ++ createKeyLoop name n k, true)) := by
  refine ⟨fun _ => createKeyGo_length name (n - k), ?_, createKeyGo_mem name (n - k), ?_⟩
  · intro h
    rw [createKeyLoop, Nat.sub_eq_zero_of_le h]
    rfl
  · intro acct calls changed u hfind hck hkn
    unfold update_userCreateKeys
    rw [if_pos (by decide : ((some "create" : Option String) == some "create") = true),
      if_pos hkn, hfind, hck]
    simp

/-- Witness for C3 at n = 3, k = 1 (two creates) and n = 2, k = 2
(zero creates), including the `update_user` create block. -/
theorem c3_key_count_convergence_witness :
    (1 ≤ 3 ∧ (createKeyLoop "alice" 3 1).length = 3 - 1) ∧
    (2 ≤ 2 ∧ (createKeyLoop "bob" 2 2).length = 0) ∧
    (let acct3 : Account :=
      { users := [{ uname := "alice", upath := "/", keys := [("K0", "Active")],
                    hasLoginProfile := false, memberOf := [], deleteBlocked := false }],
        groupNames := [], deniedGroups := [], passwordPolicyOk := true,
        createKeyFaults := false, nextKeyId := 0 }
     update_userCreateKeys acct3 [] false "alice" (some "create") 3 1 =
       Sum.inl (acct3.addKeysGo "alice" (3 - 1), [] ++ createKeyLoop "alice" 3 1, true)) :=
  ⟨⟨by decide, (c3_key_count_convergence "alice" 3 1).1 (by decide)⟩,
    ⟨by decide, (c3_key_count_convergence "bob" 2 2).2.1 (by decide)⟩,
    (c3_key_count_convergence "alice" 3 1).2.2.2
      { users := [{ uname := "alice", upath := "/", keys := [("K0", "Active")],
                    hasLoginProfile := false, memberOf := [], deleteBlocked := false }],
        groupNames := [], deniedGroups := [], passwordPolicyOk := true,
        createKeyFaults := false, nextKeyId := 0 }
      [] false
      { uname := "alice", upath := "/", keys := [("K0", "Active")],
        hasLoginProfile := false, memberOf := [], deleteBlocked := false }
      (by decide) rfl (by decide)⟩

/-- C6 (code bug): in the explicit-key-id section the activate /
deactivate decision is taken per CURRENT key rather than per listed
key.  First conjunct: the listed key K1 is already Active and "active"
is requested, yet one update call for K1 is issued (triggered by the
unrelated key K2).  Second conjunct: K1 differs from the requested
state, and TWO identical update calls for K1 are issued (one per
current key whose status differs) instead of exactly one.  Third
conjunct: with "remove" requested the delete call for the listed key is
issued, but only after a spurious `update_access_key(..., "Remove")`
call produced by the same per-current-key comparison. -/
theorem c6_key_state_cross_talk :
    update_userKeyOps "u" "active" ["K1"] [("K1", "Active"), ("K2", "Inactive")] =
      [Call.updateAccessKey "K1" "Active" "u"] ∧
    update_userKeyOps "u" "active" ["K1"] [("K1", "Inactive"), ("K2", "Inactive")] =
      [Call.updateAccessKey "K1" "Active" "u", Call.updateAccessKey "K1" "Active" "u"] ∧
    update_userKeyOps "u" "remove" ["K1"] [("K1", "Active")] =
      [Call.updateAccessKey "K1" "Remove" "u", Call.deleteAccessKey "K1" "u"] := by
  refine ⟨by decide, by decide, by decide⟩

/-- C8 counterexample: an update that renames u to v (a committed
mutating call) and then faults while creating an access key under the
stale old name reports the structured failure with changed = False,
not changed = True as the claim requires; the renamed user remains in
the account (progress really was committed). -/
theorem c8_failure_changed_flag_cex :
    (let acct : Account :=
      { users := [{ uname := "u", upath := "/", keys := [], hasLoginProfile := false,
                    memberOf := [], deleteBlocked := false }],
        groupNames := [], deniedGroups := [], passwordPolicyOk := true,
        createKeyFaults := false, nextKeyId := 0 }
     let r := update_user acct "u" (some "v") none (some "create") 1 (some []) none false
     r.2.1 = [Call.getAllAccessKeys "u", Call.getUser "u",
       Call.updateUser "u" (some "v") none, Call.createAccessKey "u"] ∧
     r.2.2 = Outcome.fail (some false) "The user with name u cannot be found" ∧
     (r.1.findUser "v").isSome = true) := by
  refine ⟨by decide, by decide, by decide⟩

/-- C8 amended: a structured failure carries a human-readable message
and no rollback of committed calls is ever attempted (the committed
rename survives and no compensating call follows the faulting one), but
the changed flag of the failure is hardcoded — changed = False on every
failure path of the update procedure before the final key re-fetch,
even when a mutating call already succeeded; only the final re-fetch
failure reports the accumulated changed flag (second conjunct:
the same committed rename followed by a failing final re-fetch reports
changed = True). -/
theorem c8_failure_no_rollback_amended :
    (let acct : Account :=
      { users := [{ uname := "u", upath := "/", keys := [], hasLoginProfile := false,
                    memberOf := [], deleteBlocked := false }],
        groupNames := [], deniedGroups := [], passwordPolicyOk := true,
        createKeyFaults := false, nextKeyId := 0 }
     let r := update_user acct "u" (some "v") none (some "create") 1 (some []) none false
     r.2.2 = Outcome.fail (some false) "The user with name u cannot be found" ∧
     Call.updateUser "u" (some "v") none ∈ r.2.1 ∧
     r.2.1.getLast? = some (Call.createAccessKey "u") ∧
     r.1.findUser "v" =
       some { uname := "v", upath := "/", keys := [], hasLoginProfile := false,
              memberOf := [], deleteBlocked := false }) ∧
    (let acct : Account :=
      { users := [{ uname := "u", upath := "/", keys := [], hasLoginProfile := false,
                    memberOf := [], deleteBlocked := false }],
        groupNames := [], deniedGroups := [], passwordPolicyOk := true,
        createKeyFaults := false, nextKeyId := 0 }
     let r2 := update_user acct "u" (some "v") none none 1 none none false
     r2.2.2 = Outcome.fail (some true) "The user with name u cannot be found" ∧
     r2.2.1 = [Call.getAllAccessKeys "u", Call.getUser "u",
       Call.updateUser "u" (some "v") none, Call.getAllAccessKeys "u"]) := by
  refine ⟨⟨by decide, by decide, by decide, by decide⟩, by decide, by decide⟩

/-! ## Parameter validation in `main` (lines 540-573) -/

/-- The validation checks of `main` after the access-key-state guard
(lines 558-573).  The access-key-fields check at line 566-567 tests
`module.params.get('access_key_id')` — a key that does not exist in the
argument spec (the real key is `access_key_ids`) — so that half of the
condition is always None and the check reduces to
`access_key_state is not None`. -/
def main_validateRest (iam_type state : String) (password : Option String)
    (access_key_state : Option String) : Outcome Unit :=
  if iam_type ≠ "user" ∧ password.isSome then
    Outcome.fail none
      "a password is being specified when the iam_type is not user. Check parameters"
  else if iam_type ≠ "user" ∧ access_key_state.isSome then
    Outcome.fail none
      "the IAM type must be user, when IAM access keys are being modified. Check parameters"
  else if iam_type = "role" ∧ state = "update" then
    Outcome.fail (some false)
      "iam_type: role, cannot currently be updated, please specificy present or absent"
  else Outcome.ok ()

/-- Shallow embedding of the validation sequence of `main`
(lines 550-573).  Line 553 evaluates `not key_ids` inside the
`active`/`inactive` guard, but the local `key_ids` is only assigned at
line 556, after the guard — in Python reading a local before its
assignment raises `UnboundLocalError`, which escapes the module
uncaught, regardless of the value of the `access_key_ids` parameter.
The guard itself mirrors
`any([n in key_state for n in ['active', 'inactive']])` (a substring
test on the lower-cased state). -/
def main_validate (iam_type state : String) (password : Option String)
    (access_key_state : Option String) (_access_key_ids : Option (List String)) :
    Outcome Unit :=
  match access_key_state with
  | some ks0 =>
      let ks := strLower ks0
      if strHasSub "active" ks || strHasSub "inactive" ks then
        Outcome.crash
          "UnboundLocalError: local variable key_ids referenced before assignment"
      else main_validateRest iam_type state password access_key_state
  | none => main_validateRest iam_type state password access_key_state

/-- C5 (code bug): for access-key-state "active" or "inactive" the
validation guard reads `key_ids` before its assignment and the module
crashes with an UnboundLocalError — it never emits the
at-least-one-key-id validation message when the id list is empty or
absent, and it also aborts invocations that supply a non-empty id list
and should pass validation.  States "create" and no state pass the
guard, and the other validations (here: the role-update rejection)
still fire. -/
theorem c5_key_ids_unbound :
    main_validate "user" "present" none (some "active") (some ["AK1"]) =
      Outcome.crash
        "UnboundLocalError: local variable key_ids referenced before assignment" ∧
    main_validate "user" "present" none (some "inactive") none =
      Outcome.crash
        "UnboundLocalError: local variable key_ids referenced before assignment" ∧
    main_validate "user" "present" none (some "create") none = Outcome.ok () ∧
    main_validate "role" "update" none none none =
      Outcome.fail (some false)
        "iam_type: role, cannot currently be updated, please specificy present or absent" := by
  refine ⟨by decide, by decide, by decide, by decide⟩

/-! ## Group reconciler (lines 388-443 and 681-718) -/

structure GroupRec where
  gname : String
  gpath : String
deriving DecidableEq

/-- Provider-side group state: existing groups, inline policies as
(group, policy) pairs, and groups whose deletion stays blocked by
managed policies even after all inline policies are removed. -/
structure GroupAcct where
  groupList : List GroupRec
  inlinePolicies : List (String × String)
  managedBlocked : List String
deriving DecidableEq

def GroupAcct.findGroup (a : GroupAcct) (n : String) : Option GroupRec :=
  a.groupList.find? (fun g => g.gname == n)

def GroupAcct.setGroup (a : GroupAcct) (n : String) (f : GroupRec → GroupRec) : GroupAcct :=
  { a with groupList := a.groupList.map (fun g => if g.gname == n then f g else g) }

def GroupAcct.removeGroup (a : GroupAcct) (n : String) : GroupAcct :=
  { a with groupList := a.groupList.filter (fun g => !(g.gname == n)) }

/-- Shallow embedding of `create_group` (lines 388-397). -/
def create_group (acct : GroupAcct) (name path : String) :
    GroupAcct × List Call × Outcome (String × Bool) :=
  ({ acct with groupList := acct.groupList ++ [{ gname := name, gpath := path }] },
    [Call.createGroup name path], Outcome.ok (name, true))

/-- Shallow embedding of `delete_group` (lines 400-424): on a
"must detach all policies first" fault the inline policies are
enumerated and deleted and the deletion retried once; if the retry
still reports attached (managed) policies the module fails with
changed = False. -/
def delete_group (acct : GroupAcct) (name : String) :
    GroupAcct × List Call × Outcome (Bool × String) :=
  let inline := acct.inlinePolicies.filter (fun p => p.1 == name)
  if inline.isEmpty ∧ name ∉ acct.managedBlocked then
    (acct.removeGroup name, [Call.deleteGroup name], Outcome.ok (true, name))
  else
    let calls1 := Call.deleteGroup name :: Call.getAllGroupPolicies name
      :: inline.map (fun p => Call.deleteGroupPolicy name p.2)
    let acct1 := { acct with
      inlinePolicies := acct.inlinePolicies.filter (fun p => !(p.1 == name)) }
    if name ∈ acct.managedBlocked then
      (acct1, calls1 ++ [Call.deleteGroup name],
        Outcome.fail (some false)
          ("All inline polices have been removed. Though it appearsthat " ++ name
            ++ " has Managed Polices. This is not currently supported by boto. Please detach the polices through the console and try again."))
    else
      (acct1.removeGroup name, calls1 ++ [Call.deleteGroup name],
        Outcome.ok (true, name))

/-- Shallow embedding of `update_group` (lines 426-443): fetch the
current path; update the path when `new_path` differs; update the name
(passing `new_path` again) when `new_name` differs.  Returns the
source's `(changed, name, new_path, current_group_path)` tuple. -/
def update_group (acct : GroupAcct) (name : String) (new_name new_path : Option String) :
    GroupAcct × List Call × Outcome (Bool × String × Option String × String) :=
  match acct.findGroup name with
  | none =>
      (acct, [Call.getGroup name],
        Outcome.fail (some false)
          ("The group with name " ++ name ++ " cannot be found."))
  | some g =>
      let current_group_path := g.gpath
      let s1 : GroupAcct × List Call × Bool :=
        match new_path with
        | some np =>
            if current_group_path ≠ np then
              (acct.setGroup name (fun h => { h with gpath := np }),
                [Call.getGroup name, Call.updateGroup name none (some np)], true)
            else (acct, [Call.getGroup name], false)
        | none => (acct, [Call.getGroup name], false)
      match new_name with
      | some nn =>
          if name ≠ nn then
            (s1.1.setGroup name (fun h =>
                { h with gname := nn, gpath := new_path.getD h.gpath }),
              s1.2.1 ++ [Call.updateGroup name (some nn) new_path],
              Outcome.ok (true, nn, new_path, current_group_path))
          else (s1.1, s1.2.1, Outcome.ok (s1.2.2, name, new_path, current_group_path))
      | none => (s1.1, s1.2.1, Outcome.ok (s1.2.2, name, new_path, current_group_path))

/-- The `iam_type == 'group'` dispatch of `main` (lines 681-718),
reduced to the changed flag of the structured exit. -/
def mainGroup (acct : GroupAcct) (snapshot : List String) (name : String)
    (new_name new_path : Option String) (path : String) (state : String) :
    GroupAcct × List Call × Outcome Bool :=
  let group_exists := name ∈ snapshot
  if state = "present" ∧ ¬group_exists then
    let r := create_group acct name path
    (r.1, r.2.1, Outcome.ok true)
  else if (state = "present" ∨ state = "update") ∧ group_exists then
    let r := update_group acct name new_name new_path
    match r.2.2 with
    | Outcome.ok (changed, _, _, _) => (r.1, r.2.1, Outcome.ok changed)
    | Outcome.fail c m => (r.1, r.2.1, Outcome.fail c m)
    | Outcome.crash m => (r.1, r.2.1, Outcome.crash m)
  else if state = "update" ∧ ¬group_exists then
    (acct, [],
      Outcome.fail (some false)
        ("Update Failed. Group " ++ name ++ " does not seem to exit!"))
  else if state = "absent" then
    if name ∈ snapshot then
      let r := delete_group acct name
      match r.2.2 with
      | Outcome.ok (changed, _) => (r.1, r.2.1, Outcome.ok changed)
      | Outcome.fail c m => (r.1, r.2.1, Outcome.fail c m)
      | Outcome.crash m => (r.1, r.2.1, Outcome.crash m)
    else (acct, [], Outcome.ok false)
  else (acct, [], Outcome.crash "fell through without exit")

/-! ## Role reconciler (lines 446-507 and 720-731) -/

/-- Provider-side role state: role names, instance-profile names,
(role, profile) attachments, inline (role, policy) pairs, and roles
whose deletion stays blocked by managed policies. -/
structure RoleAcct where
  roles : List String
  profiles : List String
  attached : List (String × String)
  rolePolicies : List (String × String)
  managedBlocked : List String
deriving DecidableEq

/-- Shallow embedding of `create_role` (lines 446-462): create role and
matching instance profile when absent from the snapshots, then always
re-list the roles. -/
def create_role (acct : RoleAcct) (name path : String)
    (role_list prof_list : List String) :
    RoleAcct × List Call × Outcome (Bool × List String) :=
  if name ∉ role_list then
    let acct1 := { acct with roles := acct.roles ++ [name] }
    if name ∉ prof_list then
      let acct2 := { acct1 with
        profiles := acct1.profiles ++ [name]
        attached := acct1.attached ++ [(name, name)] }
      (acct2,
        [Call.createRole name path, Call.createInstanceProfile name path,
          Call.addRoleToInstanceProfile name name, Call.listRoles],
        Outcome.ok (true, acct2.roles))
    else
      (acct1, [Call.createRole name path, Call.listRoles], Outcome.ok (true, acct1.roles))
  else
    (acct, [Call.listRoles], Outcome.ok (false, acct.roles))

/-- Shallow embedding of `delete_role` (lines 465-507): when the role is
in the snapshot, detach its instance profiles and delete it with the
inline-policy remediation retry (managed policies abort with
changed = False); in every non-failing run the `prof_list` loop then
deletes any instance profile named like the role — even when the role
itself was absent — and the role list is re-fetched. -/
def delete_role (acct : RoleAcct) (name : String)
    (role_list prof_list : List String) :
    RoleAcct × List Call × Outcome (Bool × List String) :=
  let step1 : (RoleAcct × List Call × Bool) ⊕
      (RoleAcct × List Call × Outcome (Bool × List String)) :=
    if name ∈ role_list then
      let profs := (acct.attached.filter (fun p => p.1 == name)).map (fun p => p.2)
      let callsA := Call.listInstanceProfilesForRole name
        :: profs.map (fun p => Call.removeRoleFromInstanceProfile p name)
      let acctA := { acct with attached := acct.attached.filter (fun p => !(p.1 == name)) }
      let inline := acctA.rolePolicies.filter (fun p => p.1 == name)
      if inline.isEmpty && !(acctA.managedBlocked.contains name) then
        Sum.inl ({ acctA with roles := acctA.roles.filter (fun r => !(r == name)) },
          callsA ++ [Call.deleteRole name], true)
      else
        let callsB := callsA ++ [Call.deleteRole name, Call.listRolePolicies name]
          ++ inline.map (fun p => Call.deleteRolePolicy name p.2)
        let acctB := { acctA with
          rolePolicies := acctA.rolePolicies.filter (fun p => !(p.1 == name)) }
        if name ∈ acctA.managedBlocked then
          Sum.inr (acctB, callsB ++ [Call.deleteRole name],
            Outcome.fail (some false)
              ("All inline polices have been removed. Though it appearsthat " ++ name
                ++ " has Managed Polices. This is not currently supported by boto. Please detach the polices through the console and try again."))
        else
          Sum.inl ({ acctB with roles := acctB.roles.filter (fun r => !(r == name)) },
            callsB ++ [Call.deleteRole name], true)
    else Sum.inl (acct, [], false)
  match step1 with
  | Sum.inr r => r
  | Sum.inl (acct1, calls1, changed) =>
      let acct2 := { acct1 with profiles := acct1.profiles.filter (fun p => !(p == name)) }
      (acct2,
        calls1 ++ (prof_list.filter (fun p => p == name)).map
            (fun p => Call.deleteInstanceProfile p)
          ++ [Call.listRoles],
        Outcome.ok (changed, acct2.roles))

/-- The `iam_type == 'role'` dispatch of `main` (lines 720-731). -/
def mainRole (acct : RoleAcct) (name path state : String)
    (role_list prof_list : List String) : RoleAcct × List Call × Outcome Bool :=
  if state = "present" then
    let r := create_role acct name path role_list prof_list
    match r.2.2 with
    | Outcome.ok (changed, _) => (r.1, r.2.1, Outcome.ok changed)
    | Outcome.fail c m => (r.1, r.2.1, Outcome.fail c m)
    | Outcome.crash m => (r.1, r.2.1, Outcome.crash m)
  else if state = "absent" then
    let r := delete_role acct name role_list prof_list
    match r.2.2 with
    | Outcome.ok (changed, _) => (r.1, r.2.1, Outcome.ok changed)
    | Outcome.fail c m => (r.1, r.2.1, Outcome.fail c m)
    | Outcome.crash m => (r.1, r.2.1, Outcome.crash m)
  else if state = "update" then
    (acct, [], Outcome.fail (some false) "Role update not currently supported by boto.")
  else (acct, [], Outcome.crash "fell through without exit")

/-! ## The `iam_type == 'user'` dispatch of `main` (lines 608-679) -/

/-- Whether an issued membership call succeeded against the provider
(an add of a missing or denied group faulted and must not be applied). -/
def groupCallSucceeds (names denied : List String) : Call → Bool
  | Call.addUserToGroup g _ => decide (g ∈ names) && decide (g ∉ denied)
  | _ => true

/-- `set_users_groups` as called from `main`: the user's current groups
are fetched from the account, the issued successful calls are applied
to the account. -/
def runSetGroups (acct : Account) (name : String) (gl : List String) :
    Account × List Call × Outcome (List String × Bool) :=
  match acct.findUser name with
  | none =>
      (acct, [Call.getGroupsForUser name],
        Outcome.fail (some false)
          ("The user with name " ++ name ++ " cannot be found"))
  | some u =>
      let r := set_users_groups acct.groupNames acct.deniedGroups name u.memberOf gl
      match r.2 with
      | Outcome.ok (gs, changed) =>
          let okCalls := r.1.filter (groupCallSucceeds acct.groupNames acct.deniedGroups)
          let acct1 := acct.setUser name (fun v =>
            { v with memberOf := applyGroupCalls v.memberOf okCalls })
          (acct1, r.1, Outcome.ok (gs, changed))
      | o => (acct, r.1, o)

/-- Shallow embedding of `create_user` (lines 168-191): create the user
(and login profile when a password is supplied — a policy violation
faults and the whole function fail_jsons with changed = False), then
run the key-creation loop when access-key-state is create. -/
def create_user (acct : Account) (name : String) (pwd : Option String) (path : String)
    (key_state : Option String) (key_count : Nat) :
    Account × List Call × Outcome Bool :=
  let acct1 := { acct with users := acct.users ++
    [{ uname := name, upath := path, keys := [], hasLoginProfile := pwd.isSome,
       memberOf := [], deleteBlocked := false }] }
  let calls1 := Call.createUser name path
    :: (if pwd.isSome then [Call.createLoginProfile name] else [])
  if pwd.isSome && !acct.passwordPolicyOk then
    (acct1, calls1,
      Outcome.fail (some false) "Password does not conform to the account password policy")
  else
    if key_state == some "create" then
      if acct.createKeyFaults && 0 < key_count then
        (acct1, calls1 ++ [Call.createAccessKey name],
          Outcome.fail (some false) "create_access_key fault")
      else
        (acct1.addKeysGo name (key_count - 0), calls1 ++ createKeyLoop name key_count 0,
          Outcome.ok true)
    else (acct1, calls1, Outcome.ok true)

/-- The present-and-missing branch of `main` (lines 618-627): create the
user, re-fetch its keys, and run membership reconciliation when a group
list was supplied (its changed flag then overwrites the creation's). -/
def mainUserCreate (acct : Account) (name : String) (password : Option String)
    (path : String) (key_state : Option String) (key_count : Nat)
    (groups : Option (List String)) (calls0 : List Call) :
    Account × List Call × Outcome Bool :=
  let r := create_user acct name password path key_state key_count
  match r.2.2 with
  | Outcome.ok changed =>
      let calls1 := calls0 ++ r.2.1 ++ [Call.getAllAccessKeys name]
      match groups with
      | some gl =>
          let g := runSetGroups r.1 name gl
          match g.2.2 with
          | Outcome.ok (_, gchanged) => (g.1, calls1 ++ g.2.1, Outcome.ok gchanged)
          | Outcome.fail c m => (g.1, calls1 ++ g.2.1, Outcome.fail c m)
          | Outcome.crash m => (g.1, calls1 ++ g.2.1, Outcome.crash m)
      | none => (r.1, calls1, Outcome.ok changed)
  | Outcome.fail c m => (r.1, calls0 ++ r.2.1, Outcome.fail c m)
  | Outcome.crash m => (r.1, calls0 ++ r.2.1, Outcome.crash m)

/-- The exists branch of `main` for present/update (lines 629-662):
password dropped when update_password is on_create, `been_updated`
detection from the snapshot, `update_user`, then membership
reconciliation; the exit's changed flag is the groups' flag when it
equals the user flag, else True. -/
def mainUserUpdate (acct : Account) (snapshot : List String) (name : String)
    (new_name new_path : Option String) (key_state : Option String)
    (key_count : Nat) (key_ids : Option (List String))
    (groups : Option (List String)) (password : Option String) (update_pw : String)
    (calls0 : List Call) : Account × List Call × Outcome Bool :=
  let password1 := if update_pw == "on_create" then none else password
  let been_updated := !(snapshot.contains name) &&
      (match new_name with | some nn => snapshot.contains nn | none => false)
  let r := update_user acct name new_name new_path key_state key_count key_ids
    password1 been_updated
  match r.2.2 with
  | Outcome.ok (name_change, _, user_changed) =>
      let name2 := if name_change && new_name.isSome then new_name.getD name else name
      let target := if been_updated then new_name.getD name2 else name2
      match groups with
      | some gl =>
          let g := runSetGroups r.1 target gl
          match g.2.2 with
          | Outcome.ok (_, gchanged) =>
              (g.1, calls0 ++ r.2.1 ++ g.2.1,
                Outcome.ok (if gchanged == user_changed then gchanged else true))
          | Outcome.fail c m => (g.1, calls0 ++ r.2.1 ++ g.2.1, Outcome.fail c m)
          | Outcome.crash m => (g.1, calls0 ++ r.2.1 ++ g.2.1, Outcome.crash m)
      | none => (r.1, calls0 ++ r.2.1, Outcome.ok user_changed)
  | Outcome.fail c m => (r.1, calls0 ++ r.2.1, Outcome.fail c m)
  | Outcome.crash m => (r.1, calls0 ++ r.2.1, Outcome.crash m)

/-- The absent-and-exists branch of `main` (lines 668-676): clear all
memberships (empty desired list), then `delete_user`; the surrounding
try converts an escaping exception into a failure with the outer
(still False) changed flag. -/
def mainUserAbsent (acct : Account) (name : String) (calls0 : List Call) :
    Account × List Call × Outcome Bool :=
  let g := runSetGroups acct name []
  match g.2.2 with
  | Outcome.ok _ =>
      let d := delete_user g.1 name
      match d.2.2 with
      | Outcome.ok (_, _, changed) =>
          (d.1, calls0 ++ g.2.1 ++ d.2.1, Outcome.ok changed)
      | Outcome.fail c m => (d.1, calls0 ++ g.2.1 ++ d.2.1, Outcome.fail c m)
      | Outcome.crash m => (d.1, calls0 ++ g.2.1 ++ d.2.1, Outcome.fail (some false) m)
  | Outcome.fail c m => (g.1, calls0 ++ g.2.1, Outcome.fail c m)
  | Outcome.crash m => (g.1, calls0 ++ g.2.1, Outcome.fail (some false) m)

/-- The state dispatch of the user branch of `main` (lines 618-679),
after the existence check. -/
def mainUserBranches (acct : Account) (snapshot : List String) (name : String)
    (new_name new_path : Option String) (path : String) (state : String)
    (key_state : Option String) (key_count : Nat) (key_ids : Option (List String))
    (groups : Option (List String)) (password : Option String) (update_pw : String)
    (user_exists : Bool) (calls0 : List Call) : Account × List Call × Outcome Bool :=
  if state == "present" && !user_exists && new_name == none then
    mainUserCreate acct name password path key_state key_count groups calls0
  else if (state == "present" || state == "update") && user_exists then
    mainUserUpdate acct snapshot name new_name new_path key_state key_count key_ids
      groups password update_pw calls0
  else if state == "update" && !user_exists then
    (acct, calls0,
      Outcome.fail none ("The user " ++ name ++ " does not exit. No update made."))
  else if state == "absent" then
    if user_exists then mainUserAbsent acct name calls0
    else (acct, calls0, Outcome.ok false)
  else (acct, calls0, Outcome.crash "fell through without exit")

/-- Shallow embedding of the user branch of `main` (lines 608-679).
The existence check (line 611) accepts the declared name OR the new
name against the read-once `snapshot`; when it holds, line 613 issues
`iam.get_user(name)` with the DECLARED name outside any try — if that
user is not in the account the fault escapes uncaught.  Lines 614-616
then swap path and new_path when the current path differs from the
declared one and no new path was requested. -/
def mainUser (acct : Account) (snapshot : List String) (name : String)
    (new_name new_path0 : Option String) (path0 : String) (state : String)
    (key_state : Option String) (key_count : Nat) (key_ids : Option (List String))
    (groups : Option (List String)) (password : Option String) (update_pw : String) :
    Account × List Call × Outcome Bool :=
  if snapshot.any (fun n => n == name || some n == new_name) then
    match acct.findUser name with
    | none =>
        (acct, [Call.getUser name],
          Outcome.crash ("BotoServerError: the user with name " ++ name
            ++ " cannot be found"))
    | some u =>
        let pr : Option String × String :=
          if new_path0 == none && !(u.upath == path0) then (some path0, u.upath)
          else (new_path0, path0)
        mainUserBranches acct snapshot name new_name pr.1 pr.2 state key_state
          key_count key_ids groups password update_pw true [Call.getUser name]
  else
    mainUserBranches acct snapshot name new_name new_path0 path0 state key_state
      key_count key_ids groups password update_pw false []

/-- C4 (code bug): re-running an update with the same new_name after a
successful rename.  The existence check (line 611) does accept the new
name, but line 613 then issues `iam.get_user` with the DECLARED (old)
name outside any try, so with the account holding only "v" the module
crashes with an uncaught not-found fault — whether the stale snapshot
still lists only "u" (first conjunct) or the fresh snapshot lists "v"
(second conjunct); the resource is never resolved under new_name.
Third conjunct: even `update_user` itself, entered with the
`been_updated` flag (bypassing the crash), issues a redundant
update-user call for "v" and reports changed = True, because the
condition at line 263 compares the current path against the None
new_path. -/
theorem c4_rename_rerun_crash :
    (let acct : Account :=
      { users := [{ uname := "v", upath := "/", keys := [], hasLoginProfile := false,
                    memberOf := [], deleteBlocked := false }],
        groupNames := [], deniedGroups := [], passwordPolicyOk := true,
        createKeyFaults := false, nextKeyId := 0 }
     mainUser acct ["u"] "u" (some "v") none "/" "update" none 1 none none none "always" =
       (acct, [Call.getUser "u"],
         Outcome.crash "BotoServerError: the user with name u cannot be found")) ∧
    (let acct : Account :=
      { users := [{ uname := "v", upath := "/", keys := [], hasLoginProfile := false,
                    memberOf := [], deleteBlocked := false }],
        groupNames := [], deniedGroups := [], passwordPolicyOk := true,
        createKeyFaults := false, nextKeyId := 0 }
     mainUser acct ["v"] "u" (some "v") none "/" "update" none 1 none none none "always" =
       (acct, [Call.getUser "u"],
         Outcome.crash "BotoServerError: the user with name u cannot be found")) ∧
    (let acct : Account :=
      { users := [{ uname := "v", upath := "/", keys := [], hasLoginProfile := false,
                    memberOf := [], deleteBlocked := false }],
        groupNames := [], deniedGroups := [], passwordPolicyOk := true,
        createKeyFaults := false, nextKeyId := 0 }
     let r := update_user acct "u" (some "v") none none 1 none none true
     r.2.1 = [Call.getAllAccessKeys "v", Call.getUser "v",
       Call.updateUser "v" none none, Call.getAllAccessKeys "v"] ∧
     r.2.2 = Outcome.ok (false, [], true)) := by
  refine ⟨by decide, by decide, by decide, by decide⟩

/-- C7 counterexample: operation=absent on role "r" which is NOT in the
role inventory, while an instance profile named "r" exists.  The run
reports changed = False as claimed, but it is not call-free: it deletes
the instance profile (a mutating provider call) and issues the final
role-list refresh. -/
theorem c7_role_absent_missing_cex :
    (let racct : RoleAcct :=
      { roles := [], profiles := ["r"], attached := [], rolePolicies := [],
        managedBlocked := [] }
     mainRole racct "r" "/" "absent" [] ["r"] =
       ({ roles := [], profiles := [], attached := [], rolePolicies := [],
          managedBlocked := [] },
         [Call.deleteInstanceProfile "r", Call.listRoles], Outcome.ok false)) ∧
    ([Call.deleteInstanceProfile "r", Call.listRoles] ≠ ([] : List Call)) := by
  refine ⟨by decide, by decide⟩

/-- C7 amended: absent on a user or group that is not in the inventory
snapshot returns changed = False with zero provider calls; absent on a
role that is not in the role inventory also returns changed = False,
but still issues the final role-list refresh call and one
delete-instance-profile call per snapshot instance profile whose name
equals the role name. -/
theorem c7_absent_on_missing_amended
    (acct : Account) (snapshot : List String) (name : String)
    (key_state : Option String) (key_count : Nat) (key_ids : Option (List String))
    (groups : Option (List String)) (password : Option String) (update_pw : String)
    (hn : name ∉ snapshot)
    (gacct : GroupAcct) (gsnap : List String) (gname : String)
    (gnn gnp : Option String) (gpath : String) (hg : gname ∉ gsnap)
    (racct : RoleAcct) (rname : String) (role_list prof_list : List String)
    (hr : rname ∉ role_list) :
    mainUser acct snapshot name none none "/" "absent" key_state key_count key_ids
        groups password update_pw = (acct, [], Outcome.ok false) ∧
    mainGroup gacct gsnap gname gnn gnp gpath "absent" =
      (gacct, [], Outcome.ok false) ∧
    delete_role racct rname role_list prof_list =
      ({ racct with profiles := racct.profiles.filter (fun p => !(p == rname)) },
        (prof_list.filter (fun p => p == rname)).map
            (fun p => Call.deleteInstanceProfile p)
          ++ [Call.listRoles],
        Outcome.ok (false, racct.roles)) := by
  have hu : snapshot.any (fun n => n == name || some n == (none : Option String)) = false := by
    rw [List.any_eq_false]
    intro x hx hcontra
    have hor : (x == name) = true ∨ (some x == (none : Option String)) = true :=
      (Bool.or_eq_true _ _) ▸ hcontra
    rcases hor with h | h
    · exact hn (beq_iff_eq.mp h ▸ hx)
    · exact Option.noConfusion (beq_iff_eq.mp h)
  refine ⟨?_, ?_, ?_⟩
  · unfold mainUser
    rw [hu]
    rfl
  · simp [mainGroup, hg]
  · simp [delete_role, hr]

/-- Witness for C7 amended at concrete inventories. -/
theorem c7_absent_on_missing_amended_witness :
    ("u" ∉ ["w"] ∧ "g" ∉ ["h"] ∧ "r" ∉ ["s"]) ∧
    (let acct0 : Account :=
      { users := [], groupNames := [], deniedGroups := [], passwordPolicyOk := true,
        createKeyFaults := false, nextKeyId := 0 }
     let gacct0 : GroupAcct :=
      { groupList := [], inlinePolicies := [], managedBlocked := [] }
     let racct0 : RoleAcct :=
      { roles := ["s"], profiles := ["r"], attached := [], rolePolicies := [],
        managedBlocked := [] }
     mainUser acct0 ["w"] "u" none none "/" "absent" none 1 none none none "always" =
       (acct0, [], Outcome.ok false) ∧
     mainGroup gacct0 ["h"] "g" none none "/" "absent" =
       (gacct0, [], Outcome.ok false) ∧
     delete_role racct0 "r" ["s"] ["r"] =
       ({ racct0 with profiles := racct0.profiles.filter (fun p => !(p == "r")) },
         (["r"].filter (fun p => p == "r")).map (fun p => Call.deleteInstanceProfile p)
           ++ [Call.listRoles],
         Outcome.ok (false, racct0.roles))) := by
  refine ⟨⟨by decide, by decide, by decide⟩, ?_⟩
  exact c7_absent_on_missing_amended _ ["w"] "u" none 1 none none none "always"
    (by decide) _ ["h"] "g" none none "/" (by decide)
    _ "r" ["s"] ["r"] (by decide)

/-- C9 counterexample: two second runs with identical desired state on
an already-matching account (user "u" exists with a login profile),
each reporting changed = True where the claim requires changed = False.
First: a supplied password with the default update_password=always
re-issues update_login_profile.  Second: no password, but new_name
equal to the current name — line 263's comparison of the current path
against the None new_path makes the run issue a redundant update-user
call and report changed = True. -/
theorem c9_password_always_changed_cex :
    (let acct : Account :=
      { users := [{ uname := "u", upath := "/", keys := [], hasLoginProfile := true,
                    memberOf := [], deleteBlocked := false }],
        groupNames := [], deniedGroups := [], passwordPolicyOk := true,
        createKeyFaults := false, nextKeyId := 0 }
     let r := mainUser acct ["u"] "u" none none "/" "present" none 1 none none
       (some "pw") "always"
     r.2.2 = Outcome.ok true ∧
     r.2.1 = [Call.getUser "u", Call.getAllAccessKeys "u", Call.updateLoginProfile "u",
       Call.getAllAccessKeys "u"]) ∧
    (let acct : Account :=
      { users := [{ uname := "u", upath := "/", keys := [], hasLoginProfile := true,
                    memberOf := [], deleteBlocked := false }],
        groupNames := [], deniedGroups := [], passwordPolicyOk := true,
        createKeyFaults := false, nextKeyId := 0 }
     let r2 := mainUser acct ["u"] "u" (some "u") none "/" "present" none 1 none none
       none "always"
     r2.2.2 = Outcome.ok true ∧
     Call.updateUser "u" (some "u") none ∈ r2.2.1) := by
  refine ⟨⟨by decide, by decide⟩, by decide, by decide⟩

theorem update_userRename_none (acct : Account) (calls : List Call) (name : String)
    (updated : Bool) :
    update_userRename acct calls name none none updated =
      Sum.inl (acct, calls, false, false) := rfl

theorem update_userRename_same (acct : Account) (calls : List Call) (name : String)
    (u : IamUser) (h2 : acct.findUser name = some u) :
    update_userRename acct calls name (some name) (some u.upath) false =
      Sum.inl (acct, calls ++ [Call.getUser name], false, false) := by
  unfold update_userRename
  rw [h2]
  simp

theorem update_userPwd_none (acct : Account) (calls : List Call) (changed : Bool)
    (name : String) :
    update_userPwd acct calls changed name none = Sum.inl (acct, calls, changed) := rfl

theorem update_userCreateKeys_skip (acct : Account) (calls : List Call) (changed : Bool)
    (name : String) (key_state : Option String) (key_count key_qty : Nat)
    (h : key_state = some "create" → key_count ≤ key_qty) :
    update_userCreateKeys acct calls changed name key_state key_count key_qty =
      Sum.inl (acct, calls, changed) := by
  unfold update_userCreateKeys
  by_cases hc : key_state = some "create"
  · subst hc
    rw [if_pos (by decide : ((some "create" : Option String) == some "create") = true),
      if_neg (Nat.not_lt.mpr (h rfl))]
  · rw [if_neg (fun hb => hc (beq_iff_eq.mp hb))]

theorem update_userKeyState_skip (acct : Account) (calls : List Call) (changed : Bool)
    (name : String) (key_state : Option String) (keys : Option (List String))
    (current : List (String × String)) (h7 : keys = none ∨ key_state = none) :
    update_userKeyState acct calls changed name key_state keys current =
      Sum.inl (acct, calls, changed) := by
  rcases h7 with rfl | rfl
  · rfl
  · rcases keys with _ | kl <;> rfl

theorem update_userFinal_found (acct : Account) (calls : List Call)
    (changed name_change : Bool) (name : String) (u : IamUser)
    (h2 : acct.findUser name = some u) :
    update_userFinal acct calls changed name_change name =
      (acct, calls ++ [Call.getAllAccessKeys name],
        Outcome.ok (name_change, u.keys, changed)) := by
  unfold update_userFinal
  rw [h2]

/-- When the desired group list equals the current memberships as a set,
`set_users_groups` issues no add or remove call and reports
changed = False, in both the empty-current and the non-empty-current
branch. -/
theorem set_users_groups_matching (names denied : List String) (user : String)
    (orig gl : List String) (heq : ∀ x, x ∈ gl ↔ x ∈ orig) :
    (set_users_groups names denied user orig gl).2 = Outcome.ok (gl, false) := by
  have hrm : orig.filter (fun x => !(gl.contains x)) = [] := by
    rw [List.filter_eq_nil_iff]
    intro a ha
    have hmem : a ∈ gl := (heq a).mpr ha
    simp [hmem]
  have hnw : gl.dedup.filter (fun x => !(orig.contains x)) = [] := by
    rw [List.filter_eq_nil_iff]
    intro a ha
    have hmem : a ∈ orig := (heq a).mp (List.mem_dedup.mp ha)
    simp [hmem]
  rcases orig with _ | ⟨o, os⟩
  · have hgl : gl = [] := by
      rw [List.eq_nil_iff_forall_not_mem]
      intro x hx
      exact absurd ((heq x).mp hx) (List.not_mem_nil x)
    subst hgl
    rfl
  · unfold set_users_groups
    simp only [hrm, hnw]
    simp [addStrictLoop]

theorem runSetGroups_matching (acct : Account) (name : String) (u : IamUser)
    (gl : List String) (h2 : acct.findUser name = some u)
    (heq : ∀ x, x ∈ gl ↔ x ∈ u.memberOf) :
    (runSetGroups acct name gl).2.2 = Outcome.ok (gl, false) := by
  have h := set_users_groups_matching acct.groupNames acct.deniedGroups name
    u.memberOf gl heq
  unfold runSetGroups
  simp only [h2]
  rcases hr : set_users_groups acct.groupNames acct.deniedGroups name u.memberOf gl
    with ⟨cs, out⟩
  rw [hr] at h
  have hout : out = Outcome.ok (gl, false) := h
  rw [hout]

/-- An update run on a matching account — keys fetched under the
declared name, rename fields absent or both equal to the current name
and path, no password, key target already met, no explicit key-id
list — commits nothing and returns changed = False with the current
keys. -/
theorem update_user_matching (acct : Account) (name path : String) (u : IamUser)
    (new_name new_path : Option String) (key_state : Option String) (key_count : Nat)
    (key_ids : Option (List String))
    (h2 : acct.findUser name = some u) (h3 : u.upath = path)
    (h5 : (new_name = none ∧ new_path = none) ∨
      (new_name = some name ∧ new_path = some path))
    (h6 : key_state = some "create" → key_count ≤ u.keys.length)
    (h7 : key_ids = none ∨ key_state = none) :
    ∃ cs, update_user acct name new_name new_path key_state key_count key_ids none false =
      (acct, cs, Outcome.ok (false, u.keys, false)) := by
  rcases h5 with ⟨rfl, rfl⟩ | ⟨rfl, rfl⟩
  · have hw : update_user acct name none none key_state key_count key_ids
        none false =
        update_userCore acct [Call.getAllAccessKeys name] name none none key_state
          key_count key_ids none false u.keys := by
      simp [update_user, h2]
    have e1 := update_userRename_none acct [Call.getAllAccessKeys name] name false
    have e2 := update_userPwd_none acct [Call.getAllAccessKeys name] false name
    have e3 := update_userCreateKeys_skip acct [Call.getAllAccessKeys name] false name
      key_state key_count u.keys.length h6
    have e4 := update_userKeyState_skip acct [Call.getAllAccessKeys name] false name
      key_state key_ids u.keys h7
    have e5 := update_userFinal_found acct [Call.getAllAccessKeys name] false false name
      u h2
    refine ⟨[Call.getAllAccessKeys name] ++ [Call.getAllAccessKeys name], ?_⟩
    rw [hw]
    unfold update_userCore
    simp only [e1, e2, e3, e4, e5]
  · subst h3
    have hw : update_user acct name (some name) (some u.upath) key_state key_count
        key_ids none false =
        update_userCore acct [Call.getAllAccessKeys name] name (some name)
          (some u.upath) key_state key_count key_ids none false u.keys := by
      simp [update_user, h2]
    have e1 := update_userRename_same acct [Call.getAllAccessKeys name] name u h2
    have e2 := update_userPwd_none acct
      ([Call.getAllAccessKeys name] ++ [Call.getUser name]) false name
    have e3 := update_userCreateKeys_skip acct
      ([Call.getAllAccessKeys name] ++ [Call.getUser name]) false name
      key_state key_count u.keys.length h6
    have e4 := update_userKeyState_skip acct
      ([Call.getAllAccessKeys name] ++ [Call.getUser name]) false name
      key_state key_ids u.keys h7
    have e5 := update_userFinal_found acct
      ([Call.getAllAccessKeys name] ++ [Call.getUser name]) false false name u h2
    refine ⟨([Call.getAllAccessKeys name] ++ [Call.getUser name])
      ++ [Call.getAllAccessKeys name], ?_⟩
    rw [hw]
    unfold update_userCore
    simp only [e1, e2, e3, e4, e5]

/-- C9 amended: invoking present twice with identical desired state on
an account already matching that state yields changed = False on the
second call — universally for Group (rename fields absent or equal to
the current name and path, in any one-sided combination) and Role, and
for User provided no password is supplied (or update_password is
on_create), new_name and new_path are either both absent or both equal
to the current name and path, the key-count target is already met, no
explicit key-id list is supplied together with an access-key-state, and
the desired group list (when present) equals the current memberships as
a set.  Outside that scope the second call reports changed = True: a
supplied password with the default update_password=always, or a
one-sided rename field even equal to the current value, re-issue a
provider call (see the counterexample). -/
theorem c9_idempotence_amended
    (gacct : GroupAcct) (gsnap : List String) (gname gpath : String) (g : GroupRec)
    (gnn gnp : Option String)
    (hg1 : gname ∈ gsnap) (hg2 : gacct.findGroup gname = some g)
    (hg3 : gnn = none ∨ gnn = some gname) (hg4 : gnp = none ∨ gnp = some g.gpath)
    (racct : RoleAcct) (rname rpath : String) (role_list prof_list : List String)
    (hrole : rname ∈ role_list)
    (acct : Account) (snapshot : List String) (name path : String) (u : IamUser)
    (new_name new_path : Option String) (key_state : Option String) (key_count : Nat)
    (key_ids : Option (List String)) (groups : Option (List String))
    (password : Option String) (update_pw : String)
    (h1 : name ∈ snapshot) (h2 : acct.findUser name = some u) (h3 : u.upath = path)
    (hpw : password = none ∨ update_pw = "on_create")
    (h5 : (new_name = none ∧ new_path = none) ∨
      (new_name = some name ∧ new_path = some path))
    (h6 : key_state = some "create" → key_count ≤ u.keys.length)
    (h7 : key_ids = none ∨ key_state = none)
    (h8 : groups = none ∨ ∃ gl, groups = some gl ∧ (∀ x, x ∈ gl ↔ x ∈ u.memberOf)) :
    (mainGroup gacct gsnap gname gnn gnp gpath "present").2.2 = Outcome.ok false ∧
    (mainRole racct rname rpath "present" role_list prof_list).2.2 = Outcome.ok false ∧
    (mainUser acct snapshot name new_name new_path path "present" key_state key_count
        key_ids groups password update_pw).2.2 = Outcome.ok false := by
  refine ⟨?_, ?_, ?_⟩
  · rcases hg3 with rfl | rfl <;> rcases hg4 with rfl | rfl <;>
      simp [mainGroup, update_group, hg1, hg2]
  · simp [mainRole, create_role, hrole]
  · have hany : snapshot.any (fun n => n == name || some n == new_name) = true := by
      rw [List.any_eq_true]
      exact ⟨name, h1, by simp⟩
    rcases update_user_matching acct name path u new_name new_path key_state key_count
      key_ids h2 h3 h5 h6 h7 with ⟨cs, hcs⟩
    rcases h8 with rfl | ⟨gl, rfl, heq⟩
    · rcases hpw with rfl | rfl <;>
        simp [mainUser, hany, h1, h2, h3, mainUserBranches, mainUserUpdate, hcs]
    · have hrg := runSetGroups_matching acct name u gl h2 heq
      rcases hpw with rfl | rfl <;>
        simp [mainUser, hany, h1, h2, h3, mainUserBranches, mainUserUpdate, hcs, hrg]

/-- Witness for C9 amended: group g1 at path /, role r1 in both
snapshots, and user u already holding one active key, a login profile
and membership of g1, re-run with the same desired state. -/
theorem c9_idempotence_amended_witness :
    ("g1" ∈ ["g1"] ∧ "r1" ∈ ["r1"] ∧ "u" ∈ ["u"] ∧
      (∀ x, x ∈ ["g1"] ↔ x ∈ ["g1"])) ∧
    (let gacct1 : GroupAcct :=
      { groupList := [{ gname := "g1", gpath := "/" }], inlinePolicies := [],
        managedBlocked := [] }
     let racct1 : RoleAcct :=
      { roles := ["r1"], profiles := ["r1"], attached := [("r1", "r1")],
        rolePolicies := [], managedBlocked := [] }
     let acct9 : Account :=
      { users := [{ uname := "u", upath := "/", keys := [("K1", "Active")],
                    hasLoginProfile := true, memberOf := ["g1"], deleteBlocked := false }],
        groupNames := ["g1"], deniedGroups := [], passwordPolicyOk := true,
        createKeyFaults := false, nextKeyId := 0 }
     (mainGroup gacct1 ["g1"] "g1" none none "/" "present").2.2 = Outcome.ok false ∧
     (mainRole racct1 "r1" "/" "present" ["r1"] ["r1"]).2.2 = Outcome.ok false ∧
     (mainUser acct9 ["u"] "u" none none "/" "present" (some "create") 1 none
        (some ["g1"]) none "always").2.2 = Outcome.ok false) := by
  refine ⟨⟨by decide, by decide, by decide, fun x => Iff.rfl⟩, ?_⟩
  exact c9_idempotence_amended
    { groupList := [{ gname := "g1", gpath := "/" }], inlinePolicies := [],
      managedBlocked := [] }
    ["g1"] "g1" "/" { gname := "g1", gpath := "/" } none none
    (by decide) (by decide) (Or.inl rfl) (Or.inl rfl)
    { roles := ["r1"], profiles := ["r1"], attached := [("r1", "r1")],
      rolePolicies := [], managedBlocked := [] }
    "r1" "/" ["r1"] ["r1"] (by decide)
    { users := [{ uname := "u", upath := "/", keys := [("K1", "Active")],
                  hasLoginProfile := true, memberOf := ["g1"], deleteBlocked := false }],
      groupNames := ["g1"], deniedGroups := [], passwordPolicyOk := true,
      createKeyFaults := false, nextKeyId := 0 }
    ["u"] "u" "/"
    { uname := "u", upath := "/", keys := [("K1", "Active")],
      hasLoginProfile := true, memberOf := ["g1"], deleteBlocked := false }
    none none (some "create") 1 none (some ["g1"]) none "always"
    (by decide) (by decide) rfl (Or.inl rfl) (Or.inl ⟨rfl, rfl⟩)
    (fun _ => by decide) (Or.inl rfl)
    (Or.inr ⟨["g1"], rfl, fun x => Iff.rfl⟩)

end Iam
